import Mathlib

/-!
Verification of the timesheet backend: work-calendar classifier, the two
status/overtime calculators, the task-entry lifecycle operations, and the
bulk ingestion pipeline, embedded shallowly from the Python source
(app/api/endpoints/task_entries.py, app/api/endpoints/bulk_upload.py,
app/schemas.py, app/models).

Dates are modelled as epoch days (an integer, number of days since
1970-01-01); the Python date.weekday() convention Monday = 0 .. Sunday = 6
means epoch day 0 (a Thursday) has weekday 3, so weekday d = (d + 3) mod 7.
Decimal values (hours, production counts) are modelled as rationals.
-/

-- The Batteries rational arithmetic definitions are irreducible, which
-- blocks kernel evaluation of the concrete examples below; restore the
-- default transparency for them.
set_option allowUnsafeReducibility true
attribute [semireducible] Rat.add Rat.sub Rat.mul Rat.div Rat.inv Rat.neg
attribute [semireducible] Rat.normalize Rat.ofScientific

-- Endpoint results are compared directly in the concrete examples.
deriving instance DecidableEq for Except

/-- Task entry status. The stale model class app/models/task_entry.py lists
only the first four members, but the migration
20260223_1304_add_pending_deletion_status.py extends the database enum with
PENDING_DELETION and every endpoint relies on it, so the operative enum has
five members. -/
inductive Status where
| DRAFT
| PENDING
| APPROVED
| REJECTED
| PENDING_DELETION
deriving DecidableEq, Repr

/-- Client status enum from app/models/client.py. -/
inductive ClientStatus where
| ACTIVE
| INACTIVE
| BACKLOG
| DEMO
deriving DecidableEq, Repr

/-- Leave request status from app/models/leave_request.py (members used by
the task-entry endpoints). -/
inductive LeaveStatus where
| PENDING
| APPROVED
| REJECTED
deriving DecidableEq, Repr

/-- User row (app/models/user.py), the fields read by the endpoints. -/
structure UserRec where
  id : Nat
  name : String
  email : String
  is_active : Bool
deriving DecidableEq, Repr

/-- Client row (app/models/client.py), the fields read by the endpoints. -/
structure ClientRec where
  id : Nat
  name : String
  status : ClientStatus
  is_active : Bool
deriving DecidableEq, Repr

/-- Task master row (app/models/task_master.py). -/
structure TaskRec where
  id : Nat
  name : String
  is_active : Bool
  is_profitable : Bool
deriving DecidableEq, Repr

/-- Leave request row (app/models/leave_request.py), fields used by the
create-entry leave-overlap check. -/
structure LeaveRec where
  user_id : Nat
  status : LeaveStatus
  from_date : Int
  to_date : Int
deriving DecidableEq, Repr

/-- TaskEntry row: app/models/task_entry.py columns plus the three
deletion-request columns added by migration 20260223_1304. uuid keys are
modelled as naturals. -/
structure TaskEntryRec where
  id : Nat
  user_id : Nat
  client_id : Option Nat
  work_date : Int
  task_name : String
  description : Option String
  total_hours : ℚ
  status : Status
  admin_comment : Option String
  approved_by : Option Nat
  approved_at : Option Int
  is_overtime : Bool
  overtime_hours : ℚ
  deletion_reason : Option String
  deletion_requested_at : Option Int
  pre_deletion_status : Option Status
  created_by : Option Nat
  updated_by : Option Nat
deriving DecidableEq, Repr

/-- TaskSubEntry row (app/models/task_entry.py). -/
structure TaskSubEntryRec where
  id : Nat
  task_entry_id : Nat
  client_id : Option Nat
  task_master_id : Option Nat
  title : String
  description : Option String
  hours : ℚ
  productive : Bool
  production : ℚ
deriving DecidableEq, Repr

/-- The persisted store and the two calendar fact sets, as read by the
endpoints through their db session. nextId models the uuid4 supply. -/
structure Db where
  holidays : List Int
  workingSaturdays : List Int
  users : List UserRec
  clients : List ClientRec
  taskMasters : List TaskRec
  entries : List TaskEntryRec
  subEntries : List TaskSubEntryRec
  leaves : List LeaveRec
  nextId : Nat
deriving DecidableEq, Repr

/-- Python date.weekday(): Monday = 0 .. Sunday = 6, on epoch days. -/
def pyWeekday (d : Int) : Int := (d + 3) % 7

/-- is_holiday from task_entries.py / bulk_upload.py: membership in the
Holiday table keyed by date. -/
def is_holiday (work_date : Int) (db : Db) : Bool :=
  db.holidays.contains work_date

/-- is_working_saturday from task_entries.py / bulk_upload.py. -/
def is_working_saturday (work_date : Int) (db : Db) : Bool :=
  db.workingSaturdays.contains work_date

/-- is_weekend from task_entries.py / bulk_upload.py. -/
def is_weekend (work_date : Int) : Bool :=
  pyWeekday work_date == 5 || pyWeekday work_date == 6

/-- The non-working-day predicate computed inline by
task_entries.calculate_task_status: holiday, Sunday, or Saturday that is
not a designated working Saturday. -/
def is_non_working (db : Db) (work_date : Int) : Bool :=
  is_holiday work_date db || (pyWeekday work_date == 6) ||
    ((pyWeekday work_date == 5) &&
      !((pyWeekday work_date == 5) && is_working_saturday work_date db))

namespace TaskEntries

/-- calculate_task_status from app/api/endpoints/task_entries.py lines
40-82: non-working day first (always PENDING, all hours overtime), then
exactly 8 hours auto-approved, then more than 8 hours pending overtime,
else pending without overtime. -/
def calculate_task_status (db : Db) (work_date : Int) (total_hours : ℚ) :
    Status × Bool × ℚ :=
  if is_non_working db work_date then
    (Status.PENDING, true, total_hours)
  else if total_hours = 8 then
    (Status.APPROVED, false, 0)
  else if total_hours > 8 then
    (Status.PENDING, true, total_hours - 8)
  else
    (Status.PENDING, false, 0)

end TaskEntries

namespace BulkUpload

/-- calculate_task_status from app/api/endpoints/bulk_upload.py lines
38-84. Note its first priority is exactly-8-hours auto-approval, even on a
holiday or weekend, and that a working Saturday with fewer than 8 hours is
auto-approved. -/
def calculate_task_status (db : Db) (work_date : Int) (total_hours : ℚ) :
    Status × Bool × ℚ :=
  let is_sat : Bool := pyWeekday work_date == 5
  let is_sun : Bool := pyWeekday work_date == 6
  let is_hol : Bool := is_holiday work_date db
  let is_work_sat : Bool := is_sat && is_working_saturday work_date db
  if total_hours = 8 then
    (if is_hol then (Status.APPROVED, true, total_hours)
     else if (is_sat || is_sun) && !is_work_sat then
       (Status.APPROVED, true, total_hours)
     else (Status.APPROVED, false, 0))
  else if is_hol then
    (Status.PENDING, true, total_hours)
  else if (is_sat || is_sun) && !is_work_sat then
    (Status.PENDING, true, total_hours)
  else if total_hours > 8 then
    (Status.PENDING, true, total_hours - 8)
  else if is_work_sat && total_hours ≤ 8 then
    (Status.APPROVED, false, 0)
  else
    (Status.PENDING, false, 0)

end BulkUpload

/-- Empty store, base for the concrete stores used in the examples. -/
def emptyDb : Db :=
  { holidays := [], workingSaturdays := [], users := [], clients := [],
    taskMasters := [], entries := [], subEntries := [], leaves := [],
    nextId := 0 }

/-- Store whose only calendar fact is a holiday on epoch day 0 (a Thursday). -/
def dbHol : Db := { emptyDb with holidays := [0] }

/-! ## Bulk ingestion pipeline (app/api/endpoints/bulk_upload.py) -/

/-- An Excel cell as handed to the row loop by openpyxl (values_only):
empty cell, a number, a string, or a date/datetime (collapsed to its
date, as the endpoint immediately calls .date() on datetimes). -/
inductive Cell where
| null
| num (q : ℚ)
| text (s : String)
| dateCell (d : Int)
deriving DecidableEq, Repr

/-- Python truthiness for cell values: None, numeric zero and the empty
string are falsy; dates are always truthy. -/
def Cell.truthy : Cell → Bool
| Cell.null => false
| Cell.num q => decide (q ≠ 0)
| Cell.text s => decide (s ≠ "")
| Cell.dateCell _ => true

/-- Python str() of a cell value, used when building result rows. -/
def cellToStr : Cell → String
| Cell.null => "None"
| Cell.num q => toString q
| Cell.text s => s
| Cell.dateCell d => toString d

/-- str(c) if c else None, the pattern used in the error rows. -/
def optStr (c : Cell) : Option String :=
  if c.truthy then Option.some (cellToStr c) else Option.none

/-- Lowercasing, character by character (str.lower()). -/
def toLowerStr (s : String) : String := String.mk (s.data.map Char.toLower)

/-- Strip leading and trailing whitespace (str.strip()). -/
def trimStr (s : String) : String :=
  String.mk (((s.data.dropWhile Char.isWhitespace).reverse.dropWhile
    Char.isWhitespace).reverse)

/-- needle-in-haystack substring test (Python in on str). -/
def strContains (hay needle : String) : Bool :=
  decide (needle.data <:+: hay.data)

/-- SQL ILIKE percent-name-percent: case-insensitive containment. -/
def ilikeContains (hay needle : String) : Bool :=
  strContains (toLowerStr hay) (toLowerStr needle)

/-- Digit-string to number; fails on empty or non-digit input. -/
def parseNatDigits (cs : List Char) : Option Nat :=
  if cs ≠ [] ∧ cs.all Char.isDigit then
    Option.some (cs.foldl (fun a c => a * 10 + (c.toNat - 48)) 0)
  else Option.none

/-- Decimal(str) for the Count/Time columns: optional sign, digits,
optional fractional digits. -/
def parseDecimal (s : String) : Option ℚ :=
  let cs := s.toList
  let signRest : Int × List Char :=
    match cs with
    | '-' :: r => (-1, r)
    | '+' :: r => (1, r)
    | r => (1, r)
  let intPart := signRest.2.takeWhile (fun c => c ≠ '.')
  match signRest.2.drop intPart.length with
  | [] => (parseNatDigits intPart).map (fun n => mkRat (signRest.1 * n) 1)
  | '.' :: fracs =>
    match parseNatDigits intPart, parseNatDigits fracs with
    | Option.some n, Option.some f =>
      Option.some (mkRat (signRest.1 * (n * 10 ^ fracs.length + f))
        (10 ^ fracs.length))
    | _, _ => Option.none
  | _ => Option.none

/-- Gregorian leap year. -/
def isLeap (y : Int) : Bool := (y % 4 == 0 && y % 100 != 0) || y % 400 == 0

/-- Days in a month of the proleptic Gregorian calendar. -/
def daysInMonth (y m : Int) : Int :=
  if m = 2 then (if isLeap y then 29 else 28)
  else if m = 4 ∨ m = 6 ∨ m = 9 ∨ m = 11 then 30
  else 31

/-- Epoch day (days since 1970-01-01) of a civil date, floor-division
formulation of the standard days-from-civil computation. -/
def daysFromCivil (y m d : Int) : Int :=
  let yy := if m ≤ 2 then y - 1 else y
  let mm := if m ≤ 2 then m + 9 else m - 3
  365 * yy + yy.fdiv 4 - yy.fdiv 100 + yy.fdiv 400 +
    (153 * mm + 2).fdiv 5 + d - 1 - 719468

/-- Split a character list on a separator (used for ISO date parsing,
since the String splitting functions do not reduce in the kernel). -/
def splitOnChar (c : Char) : List Char → List (List Char)
| [] => [[]]
| x :: xs =>
  if x = c then [] :: splitOnChar c xs
  else
    match splitOnChar c xs with
    | h :: t => (x :: h) :: t
    | [] => [[x]]

/-- date.fromisoformat on the strict YYYY-MM-DD form, as an epoch day. -/
def isoDate (s : String) : Option Int :=
  match splitOnChar '-' s.data with
  | [ys, ms, ds] =>
    if ys.length = 4 ∧ ms.length = 2 ∧ ds.length = 2 then
      match parseNatDigits ys, parseNatDigits ms, parseNatDigits ds with
      | Option.some y, Option.some m, Option.some d =>
        if 1 ≤ (m : Int) ∧ (m : Int) ≤ 12 ∧ 1 ≤ (d : Int) ∧
            (d : Int) ≤ daysInMonth y m then
          Option.some (daysFromCivil y m d)
        else Option.none
      | _, _, _ => Option.none
    else Option.none
  | _ => Option.none

/-- Outcome of the date-column conversion (upload_task_entries lines
165-181) once the inner try has not raised: either a real date, or — when
the cell held a number — the unchanged numeric value, on which every later
date use (weekday(), isoformat()) raises AttributeError, caught by the
per-row exception handler. A string that fromisoformat rejects is the
invalid-date row, modelled as Option.none of this type. -/
inductive DateVal where
| ok (d : Int)
| crashy
deriving DecidableEq, Repr

def parseDateCell : Cell → Option DateVal
| Cell.text s => (isoDate s).map DateVal.ok
| Cell.dateCell d => Option.some (DateVal.ok d)
| Cell.num _ => Option.some DateVal.crashy
| Cell.null => Option.some DateVal.crashy

/-- Count/Time column conversion: Decimal(str(value).strip()); a date in
the column makes Decimal raise, which the numeric handler catches. -/
def parseNumCell : Cell → Option ℚ
| Cell.num q => Option.some q
| Cell.text s => parseDecimal (trimStr s)
| Cell.dateCell _ => Option.none
| Cell.null => Option.none

/-- One element of the per-row results list returned by the upload
endpoint (date kept as an epoch day instead of an ISO string). -/
structure RowResult where
  success : Bool
  message : String
  coder_name : Option String
  client_name : Option String
  task_name : Option String
  date : Option Int
deriving DecidableEq, Repr

/-- An element of task_entries_to_create: a fully validated row waiting
for the commit phase. -/
structure PendingEntry where
  user : UserRec
  client : ClientRec
  task_master : TaskRec
  work_date : Int
  hours : ℚ
  production : ℚ
  entryStatus : Status
  is_overtime : Bool
  overtime_hours : ℚ
deriving DecidableEq, Repr

/-- The result row built by the per-row exception handler (lines 324-331):
any exception escaping the row body — notably the UnboundLocalError on an
unbound coder_name_str and the AttributeError on a numeric date value — is
reported this way, echoing only the Username cell. -/
def crashRowResult (username : Cell) : RowResult :=
  { success := false, message := "Error processing row",
    coder_name := optStr username, client_name := Option.none,
    task_name := Option.none, date := Option.none }

/-- The row steps after a user has been resolved (lines 236-322): client
lookup, task lookup, duplicate check, then the pending entry. The source
assigns the loop-local coder_name_str only inside the fallback branch of
the user lookup (line 217) yet reads it in the client-not-found (248),
task-not-found (268), duplicate (286-288), pending-entry (308) and
success (317) rows; reading it unbound raises UnboundLocalError, and a
numeric date value makes work_date.isoformat() or the status calculation
raise AttributeError — either way the per-row handler yields the
processing-error row. bound is the current value of coder_name_str
(Option.none while unbound), possibly stale from an earlier row. -/
def processRowAfterUser (db : Db)
    (username coder_name client_name task_name : Cell)
    (bound : Option String) (user : UserRec) (dv : DateVal)
    (production hours : ℚ) : RowResult × Option PendingEntry :=
  match db.clients.find? (fun c => c.is_active &&
      ilikeContains c.name (trimStr (cellToStr client_name))) with
  | Option.none =>
    match bound, dv with
    | Option.some cn, DateVal.ok d =>
      ({ success := false, message := "Client not found",
         coder_name := Option.some cn,
         client_name := Option.some (trimStr (cellToStr client_name)),
         task_name := Option.some (cellToStr task_name),
         date := Option.some d }, Option.none)
    | _, _ => (crashRowResult username, Option.none)
  | Option.some client =>
    match db.taskMasters.find? (fun t => t.is_active &&
        ilikeContains t.name (trimStr (cellToStr task_name))) with
    | Option.none =>
      match bound, dv with
      | Option.some cn, DateVal.ok d =>
        ({ success := false,
           message := "Task not found in task master",
           coder_name := Option.some cn,
           client_name := Option.some (trimStr (cellToStr client_name)),
           task_name := Option.some (trimStr (cellToStr task_name)),
           date := Option.some d }, Option.none)
      | _, _ => (crashRowResult username, Option.none)
    | Option.some task_master =>
      match dv with
      | DateVal.crashy => (crashRowResult username, Option.none)
      | DateVal.ok d =>
        if db.entries.any (fun e => e.user_id == user.id &&
            e.work_date == d) then
          match bound with
          | Option.some cn =>
            ({ success := false,
               message := "Task entry already exists for this user on this date",
               coder_name := Option.some cn,
               client_name := Option.some (trimStr (cellToStr client_name)),
               task_name := Option.some (trimStr (cellToStr task_name)),
               date := Option.some d }, Option.none)
          | Option.none => (crashRowResult username, Option.none)
        else
          match bound with
          | Option.none => (crashRowResult username, Option.none)
          | Option.some cn =>
            match BulkUpload.calculate_task_status db d hours with
            | (st, ot, oth) =>
              ({ success := true,
                 message := "Successfully created task entry",
                 coder_name := Option.some cn,
                 client_name := Option.some (trimStr (cellToStr client_name)),
                 task_name := Option.some (trimStr (cellToStr task_name)),
                 date := Option.some d },
               Option.some
                 { user := user, client := client,
                   task_master := task_master, work_date := d,
                   hours := hours, production := production,
                   entryStatus := st, is_overtime := ot,
                   overtime_hours := oth })

/-- Phase-1 validation of one non-empty row (upload_task_entries lines
124-332). bound carries the loop-local coder_name_str across the rows of
the batch: it starts unbound, is (re)assigned exactly when the
email-prefix user lookup misses, and then persists into later rows.
Returns the result row appended to validation_results, the pending entry
when the row passes, and the binding after the row. -/
def processRow (db : Db) (bound : Option String) (row : List Cell) :
    (RowResult × Option PendingEntry) × Option String :=
  match row with
  | date_val :: username :: coder_name :: client_name :: task_name ::
      count_val :: time_val :: _ =>
    if !(date_val.truthy && username.truthy && coder_name.truthy &&
         client_name.truthy && task_name.truthy && count_val.truthy &&
         time_val.truthy) then
      (({ success := false,
          message := "Missing required fields (Date, Coder Name, Client, Task, Count, Time)",
          coder_name := optStr coder_name, client_name := optStr client_name,
          task_name := optStr task_name, date := Option.none },
        Option.none), bound)
    else
      match parseDateCell date_val with
      | Option.none =>
        (({ success := false,
            message := "Invalid date format. Expected YYYY-MM-DD.",
            coder_name := Option.some (cellToStr coder_name),
            client_name := Option.some (cellToStr client_name),
            task_name := Option.some (cellToStr task_name),
            date := Option.none }, Option.none), bound)
      | Option.some dv =>
        match parseNumCell count_val, parseNumCell time_val with
        | Option.some production, Option.some hours =>
          if production < 0 ∨ hours < 0 then
            (match dv with
             | DateVal.ok d =>
               (({ success := false,
                   message := "Invalid numeric values in Count or Time columns",
                   coder_name := Option.some (cellToStr coder_name),
                   client_name := Option.some (cellToStr client_name),
                   task_name := Option.some (cellToStr task_name),
                   date := Option.some d }, Option.none), bound)
             | DateVal.crashy => ((crashRowResult username, Option.none), bound))
          else
            match db.users.find? (fun u => u.is_active &&
                (toLowerStr (trimStr (cellToStr username))).data.isPrefixOf
                  (toLowerStr u.email).data) with
            | Option.some user =>
              (processRowAfterUser db username coder_name client_name
                task_name bound user dv production hours, bound)
            | Option.none =>
              let cn := trimStr (cellToStr coder_name)
              match db.users.find? (fun u => u.is_active &&
                  ilikeContains u.name cn) with
              | Option.none =>
                (match dv with
                 | DateVal.ok d =>
                   (({ success := false, message := "User not found",
                       coder_name := Option.some (cellToStr coder_name),
                       client_name := Option.some (cellToStr client_name),
                       task_name := Option.some (cellToStr task_name),
                       date := Option.some d }, Option.none), Option.some cn)
                 | DateVal.crashy =>
                   ((crashRowResult username, Option.none), Option.some cn))
              | Option.some user =>
                (processRowAfterUser db username coder_name client_name
                  task_name (Option.some cn) user dv production hours,
                 Option.some cn)
        | _, _ =>
          (match dv with
           | DateVal.ok d =>
             (({ success := false,
                 message := "Invalid numeric values in Count or Time columns",
                 coder_name := Option.some (cellToStr coder_name),
                 client_name := Option.some (cellToStr client_name),
                 task_name := Option.some (cellToStr task_name),
                 date := Option.some d }, Option.none), bound)
           | DateVal.crashy => ((crashRowResult username, Option.none), bound))
  | _ =>
    (({ success := false,
        message := "Row has too few columns. Expected 7 columns: Date, Username, Coder Name, Client, Task, Count, Time",
        coder_name := (row.get? 2).map cellToStr,
        client_name := Option.none, task_name := Option.none,
        date := Option.none }, Option.none), bound)

/-- Phase 1 over all rows: empty rows (no truthy cell) are skipped, every
other row contributes exactly one result row; the coder_name_str binding
is threaded through the batch, starting unbound. -/
def phase1 (db : Db) :
    Option String → List (List Cell) → List (RowResult × Option PendingEntry)
| _, [] => []
| bound, row :: rest =>
  if row.any Cell.truthy then
    (processRow db bound row).1 :: phase1 db (processRow db bound row).2 rest
  else phase1 db bound rest

/-- TaskEntry built by the commit phase for one validated row. -/
def pendingToEntry (idv adminId : Nat) (p : PendingEntry) : TaskEntryRec :=
  { id := idv, user_id := p.user.id, client_id := Option.some p.client.id,
    work_date := p.work_date, task_name := p.task_master.name,
    description := Option.none, total_hours := p.hours,
    status := p.entryStatus, admin_comment := Option.none,
    approved_by := Option.none, approved_at := Option.none,
    is_overtime := p.is_overtime, overtime_hours := p.overtime_hours,
    deletion_reason := Option.none, deletion_requested_at := Option.none,
    pre_deletion_status := Option.none, created_by := Option.some adminId,
    updated_by := Option.some adminId }

/-- The single TaskSubEntry built alongside it. -/
def pendingToSub (idv entryId : Nat) (p : PendingEntry) : TaskSubEntryRec :=
  { id := idv, task_entry_id := entryId, client_id := Option.some p.client.id,
    task_master_id := Option.some p.task_master.id,
    title := p.task_master.name, description := Option.none,
    hours := p.hours, productive := p.task_master.is_profitable,
    production := p.production }

/-- Commit phase: one TaskEntry plus one TaskSubEntry per validated row. -/
def commitPendings (adminId : Nat) : Db → List PendingEntry → Db
| db, [] => db
| db, p :: rest =>
  let e := pendingToEntry db.nextId adminId p
  let s := pendingToSub (db.nextId + 1) db.nextId p
  commitPendings adminId
    { db with
        entries := db.entries ++ [e],
        subEntries := db.subEntries ++ [s],
        nextId := db.nextId + 2 } rest

/-- Response of the upload endpoint. -/
structure UploadResponse where
  total_records : Nat
  successful : Nat
  failed : Nat
  results : List RowResult
  message : String
deriving DecidableEq, Repr

/-- upload_task_entries (bulk_upload.py lines 87-405): validate all rows,
return immediately with zero writes when any row failed, otherwise commit
every pending entry; commitOk = false models the db.commit() call raising,
after which db.rollback() leaves the store unchanged. -/
def upload_task_entries (db : Db) (adminId : Nat) (rows : List (List Cell))
    (commitOk : Bool) : UploadResponse × Db :=
  let step := phase1 db Option.none rows
  let validation_results := step.map Prod.fst
  let pendings := step.filterMap Prod.snd
  let has_errors := validation_results.any (fun r => !r.success)
  if has_errors then
    ({ total_records := validation_results.length, successful := 0,
       failed := validation_results.length, results := validation_results,
       message := "Validation failed. No records were saved." }, db)
  else if commitOk then
    ({ total_records := pendings.length, successful := pendings.length,
       failed := 0, results := validation_results,
       message := "All records saved successfully." },
     commitPendings adminId db pendings)
  else
    ({ total_records := validation_results.length, successful := 0,
       failed := validation_results.length, results := validation_results,
       message := "Database save failed. No records were saved." }, db)


/-- The sub-entries produced by the commit phase from a pending list. -/
def commitSubsFrom (idv : Nat) : List PendingEntry → List TaskSubEntryRec
| [] => []
| p :: rest => pendingToSub (idv + 1) idv p :: commitSubsFrom (idv + 2) rest

/-- An active employee used in the concrete stores. -/
def userAlice : UserRec :=
  { id := 1, name := "Alice Smith", email := "alice@example.com",
    is_active := true }

/-- An active client used in the concrete stores. -/
def clientAcme : ClientRec :=
  { id := 2, name := "Acme", status := ClientStatus.ACTIVE, is_active := true }

/-- An ordinary productive task type. -/
def taskCoding : TaskRec :=
  { id := 3, name := "Coding", is_active := true, is_profitable := true }

/-- A leave task type; its name contains the keyword leave. -/
def taskLeave : TaskRec :=
  { id := 3, name := "Leave", is_active := true, is_profitable := false }

/-- Store with one employee, one client and the Coding task type. -/
def dbBulk : Db :=
  { emptyDb with
      users := [userAlice], clients := [clientAcme],
      taskMasters := [taskCoding] }

/-- Store with one employee, one client and the Leave task type. -/
def dbLeave : Db :=
  { emptyDb with
      users := [userAlice], clients := [clientAcme],
      taskMasters := [taskLeave] }

/-- A fully valid spreadsheet row: Monday epoch day 4 (1970-01-05), Alice,
Acme, Coding, count 1, four hours. The Username cell smith misses the
email-prefix lookup, so the user resolves through the coder-name fallback,
which binds coder_name_str; a row resolved by the email-prefix lookup
while coder_name_str is unbound would instead crash with
UnboundLocalError and fail as a processing-error row. -/
def rowMonday : List Cell :=
  [Cell.dateCell 4, Cell.text "smith", Cell.text "Alice Smith",
   Cell.text "Acme", Cell.text "Coding", Cell.num 1, Cell.num 4]

/-- The same row except the Count cell holds the text value 0: truthy as a
string, parsed by Decimal to the number 0. -/
def rowTextZeroCount : List Cell :=
  [Cell.dateCell 4, Cell.text "smith", Cell.text "Alice Smith",
   Cell.text "Acme", Cell.text "Coding", Cell.text "0", Cell.num 4]

/-- A row booking the Leave task with a production count of 5 and 2 hours,
which the task-type keyword rule would reject at entry creation. -/
def rowLeaveWithProduction : List Cell :=
  [Cell.dateCell 4, Cell.text "smith", Cell.text "Alice Smith",
   Cell.text "Acme", Cell.text "Leave", Cell.num 5, Cell.num 2]

/-! ## Task-entry lifecycle (app/api/endpoints/task_entries.py, app/schemas.py) -/

/-- requires_hours_only (task_entries.py lines 229-234 and the identical
copies in update/admin-update): task names containing any of the keywords
celebration, leave, meeting, tech, technical issue, training. -/
def requires_hours_only (task_name : String) : Bool :=
  ["celebration", "leave", "meeting", "tech", "technical issue",
   "training"].any (fun kw => strContains (toLowerStr task_name) kw)

/-- requires_production_only: task names containing gp task. -/
def requires_production_only (task_name : String) : Bool :=
  strContains (toLowerStr task_name) "gp task"

/-- is_leave_task (create_task_entry lines 241-253): unprofitable task
master, or a name containing a leave-related keyword. -/
def is_leave_task (db : Db) (task_master_id : Nat) : Bool :=
  match db.taskMasters.find? (fun t => t.id == task_master_id) with
  | Option.none => false
  | Option.some tm =>
    if tm.is_profitable = false then true
    else
      ["leave", "sick", "vacation", "absent", "holiday", "off day",
       "time off"].any (fun kw => strContains (toLowerStr tm.name) kw)

/-- Request-body line of TaskSubEntryCreate (app/schemas.py). -/
structure TaskSubEntryCreateIn where
  client_id : Option Nat
  title : String
  description : Option String
  hours : ℚ
  production : ℚ
  task_master_id : Nat
deriving DecidableEq, Repr

/-- Request body of TaskEntryCreate (app/schemas.py). -/
structure TaskEntryCreateIn where
  work_date : Int
  task_name : String
  description : Option String
  client_id : Option Nat
  sub_entries : List TaskSubEntryCreateIn
deriving DecidableEq, Repr

/-- Request body of TaskEntryUpdate (app/schemas.py); a missing field is
an unset field (exclude_unset). -/
structure TaskEntryUpdateIn where
  task_name : Option String
  description : Option String
  client_id : Option Nat
  sub_entries : Option (List TaskSubEntryCreateIn)
deriving DecidableEq, Repr

/-- Pydantic field bounds on one line: hours between 0 and 24, production
at least 0 (TaskSubEntryBase, schemas.py lines 137-144). -/
def schemaValidSub (s : TaskSubEntryCreateIn) : Bool :=
  decide (0 ≤ s.hours ∧ s.hours ≤ 24 ∧ 0 ≤ s.production)

/-- Sum of the line hours. -/
def totalHours (subs : List TaskSubEntryCreateIn) : ℚ :=
  (subs.map (fun s => s.hours)).sum

/-- Pydantic validation of TaskEntryCreate: at least one line, per-line
field bounds, and total hours strictly positive (schemas.py lines
169-177). There is no upper bound on the total. -/
def taskEntryCreateSchemaValid (inp : TaskEntryCreateIn) : Bool :=
  decide (1 ≤ inp.sub_entries.length) &&
    inp.sub_entries.all schemaValidSub &&
    decide (0 < totalHours inp.sub_entries)

/-- Pydantic validation of TaskEntryUpdate: when lines are provided, the
per-line bounds and the positive-total validator apply (schemas.py lines
182-194). -/
def taskEntryUpdateSchemaValid (u : TaskEntryUpdateIn) : Bool :=
  match u.sub_entries with
  | Option.none => true
  | Option.some subs =>
    subs.all schemaValidSub && decide (0 < totalHours subs)

/-- The per-line task-type validation loop shared verbatim by
create_task_entry (lines 255-290), update_task_entry (lines 466-519) and
admin_update_task_entry: resolve the task master (404 when absent), then
enforce the keyword rule, stopping at the first violation. -/
def validateSubs (db : Db) : List TaskSubEntryCreateIn → Option String
| [] => Option.none
| sub :: rest =>
  match db.taskMasters.find? (fun t => t.id == sub.task_master_id) with
  | Option.none => Option.some "Task master not found"
  | Option.some tm =>
    if requires_hours_only tm.name then
      if sub.hours ≤ 0 then
        Option.some "Task requires hours to be greater than 0"
      else if sub.production > 0 then
        Option.some "Task does not require production value"
      else validateSubs db rest
    else if requires_production_only tm.name then
      if sub.production ≤ 0 then
        Option.some "Task requires production to be greater than 0"
      else if sub.hours > 0 then
        Option.some "Task does not require hours value"
      else validateSubs db rest
    else validateSubs db rest

/-- The sub-entry construction loop of create/update: re-resolves each task
master and copies its productive flag onto the new line. -/
def buildSubs (db : Db) (entryId : Nat) : Nat → List TaskSubEntryCreateIn →
    Except String (List TaskSubEntryRec)
| _, [] => Except.ok []
| idv, s :: rest =>
  match db.taskMasters.find? (fun t => t.id == s.task_master_id) with
  | Option.none => Except.error "Task master not found"
  | Option.some tm =>
    match buildSubs db entryId (idv + 1) rest with
    | Except.error e => Except.error e
    | Except.ok subs =>
      Except.ok
        ({ id := idv, task_entry_id := entryId, client_id := s.client_id,
           task_master_id := Option.some s.task_master_id, title := s.title,
           description := s.description, hours := s.hours,
           productive := tm.is_profitable, production := s.production } :: subs)

/-- Tail of create_task_entry after the client checks: duplicate-date
check, approved-leave check, status computation, and persistence of the
entry with its lines (lines 326-404). -/
def create_after_clients (db : Db) (uid : Nat) (inp : TaskEntryCreateIn) :
    Except String Db :=
  if db.entries.any (fun e => e.user_id == uid &&
      e.work_date == inp.work_date) then
    Except.error "Task entry already exists for this date"
  else if db.leaves.any (fun l => l.user_id == uid &&
      decide (l.status = LeaveStatus.APPROVED) &&
      decide (l.from_date ≤ inp.work_date) &&
      decide (inp.work_date ≤ l.to_date)) then
    Except.error "Cannot create task entry on a date with approved leave"
  else
    let total := totalHours inp.sub_entries
    let calcRes := TaskEntries.calculate_task_status db inp.work_date total
    let first_client_id :=
      inp.sub_entries.findSome? (fun s => s.client_id)
    let entry : TaskEntryRec :=
      { id := db.nextId, user_id := uid,
        client_id :=
          (match inp.client_id with
           | Option.some c => Option.some c
           | Option.none => first_client_id),
        work_date := inp.work_date, task_name := inp.task_name,
        description := inp.description, total_hours := total,
        status := calcRes.1, admin_comment := Option.none,
        approved_by := Option.none, approved_at := Option.none,
        is_overtime := calcRes.2.1, overtime_hours := calcRes.2.2,
        deletion_reason := Option.none,
        deletion_requested_at := Option.none,
        pre_deletion_status := Option.none,
        created_by := Option.some uid, updated_by := Option.some uid }
    match buildSubs db entry.id (db.nextId + 1) inp.sub_entries with
    | Except.error e => Except.error e
    | Except.ok subs =>
      Except.ok
        { db with
            entries := db.entries ++ [entry],
            subEntries := db.subEntries ++ subs,
            nextId := db.nextId + 1 + subs.length }

/-- create_task_entry (task_entries.py lines 216-404): per-line task-type
validation, then validation of the referenced non-leave clients (must
exist, be active, and not have INACTIVE status), then the duplicate and
leave guards, then persistence. -/
def create_task_entry (db : Db) (uid : Nat) (inp : TaskEntryCreateIn) :
    Except String Db :=
  match validateSubs db inp.sub_entries with
  | Option.some msg => Except.error msg
  | Option.none =>
    let client_ids :=
      ((inp.sub_entries.filter (fun s => s.client_id.isSome &&
          !is_leave_task db s.task_master_id)).filterMap
        (fun s => s.client_id)).dedup
    if client_ids.isEmpty then create_after_clients db uid inp
    else
      let all_clients := db.clients.filter
        (fun c => client_ids.contains c.id && c.is_active)
      if client_ids.any (fun cid =>
          !(all_clients.any (fun c => c.id == cid))) then
        Except.error "Clients not found or have been removed"
      else if all_clients.any
          (fun c => decide (c.status = ClientStatus.INACTIVE)) then
        Except.error "Cannot add entries for inactive clients"
      else create_after_clients db uid inp

/-- CreateEntry as exposed over HTTP: pydantic request validation (a 422
on failure), then the endpoint body. -/
def createEntryRequest (db : Db) (uid : Nat) (inp : TaskEntryCreateIn) :
    Except String Db :=
  if taskEntryCreateSchemaValid inp then create_task_entry db uid inp
  else Except.error "Unprocessable entity: request body validation failed"

/-- Replace the first element satisfying the predicate (mutation of the
row object returned by query(...).first()). -/
def replaceFirst {α : Type} (p : α → Bool) (a : α) : List α → List α
| [] => []
| x :: xs => if p x then a :: xs else x :: replaceFirst p a xs

/-- update_task_entry (task_entries.py lines 433-564): guard to Draft,
Pending or Rejected; apply provided basic fields; when lines are provided,
validate them, replace them, recompute totals, recompute status/overtime
unless the status is APPROVED (dead branch: the guard already excluded
APPROVED); finally the Rejected-to-Draft reset. -/
def update_task_entry (db : Db) (uid eid : Nat) (u : TaskEntryUpdateIn) :
    Except String Db :=
  match db.entries.find? (fun e => e.id == eid && e.user_id == uid) with
  | Option.none => Except.error "Task entry not found"
  | Option.some e =>
    if decide (e.status = Status.DRAFT) || decide (e.status = Status.PENDING)
        || decide (e.status = Status.REJECTED) then
      let e1 : TaskEntryRec :=
        { e with
            task_name := u.task_name.getD e.task_name,
            description :=
              (match u.description with
               | Option.some dsc => Option.some dsc
               | Option.none => e.description),
            client_id :=
              (match u.client_id with
               | Option.some c => Option.some c
               | Option.none => e.client_id) }
      match u.sub_entries with
      | Option.none =>
        let e2 := if e1.status = Status.REJECTED then
            { e1 with status := Status.DRAFT, admin_comment := Option.none }
          else e1
        let e3 := { e2 with updated_by := Option.some uid }
        let entries1 := replaceFirst
          (fun x => x.id == eid && x.user_id == uid) e3 db.entries
        Except.ok { db with entries := entries1 }
      | Option.some subs =>
        match validateSubs db subs with
        | Option.some msg => Except.error msg
        | Option.none =>
          match buildSubs db e.id db.nextId subs with
          | Except.error msg => Except.error msg
          | Except.ok newSubs =>
            let total := totalHours subs
            let e2 := { e1 with total_hours := total }
            let calcRes := TaskEntries.calculate_task_status db e2.work_date total
            let e3 :=
              if e2.status ≠ Status.APPROVED then
                { e2 with
                    status := calcRes.1,
                    is_overtime := calcRes.2.1,
                    overtime_hours := calcRes.2.2 }
              else
                { e2 with
                    is_overtime := calcRes.2.1,
                    overtime_hours := calcRes.2.2 }
            let e4 := if e3.status = Status.REJECTED then
                { e3 with
                    status := Status.DRAFT,
                    admin_comment := Option.none }
              else e3
            let e5 := { e4 with updated_by := Option.some uid }
            let entries1 := replaceFirst
              (fun x => x.id == eid && x.user_id == uid) e5 db.entries
            let subEntries1 := (db.subEntries.filter
              (fun s => !(s.task_entry_id == e.id))) ++ newSubs
            Except.ok
              { db with
                  entries := entries1,
                  subEntries := subEntries1,
                  nextId := db.nextId + newSubs.length }
    else Except.error "Cannot edit approved task entries"

/-- EditEntry as exposed over HTTP: pydantic validation then the endpoint. -/
def updateEntryRequest (db : Db) (uid eid : Nat) (u : TaskEntryUpdateIn) :
    Except String Db :=
  if taskEntryUpdateSchemaValid u then update_task_entry db uid eid u
  else Except.error "Unprocessable entity: request body validation failed"

/-- request_task_entry_deletion (task_entries.py lines 600-635), the DELETE
endpoint available to the employee: refuse when already pending deletion,
otherwise snapshot the status, mark the entry PENDING_DELETION and record
reason and timestamp. The entry itself is kept. -/
def request_task_entry_deletion (db : Db) (uid eid : Nat)
    (reason : Option String) (now : Int) :
    Except String (TaskEntryRec × Db) :=
  match db.entries.find? (fun e => e.id == eid && e.user_id == uid) with
  | Option.none => Except.error "Task entry not found"
  | Option.some e =>
    if e.status = Status.PENDING_DELETION then
      Except.error "Deletion already requested"
    else
      let e1 : TaskEntryRec :=
        { e with
            pre_deletion_status := Option.some e.status,
            status := Status.PENDING_DELETION,
            deletion_requested_at := Option.some now,
            deletion_reason := reason,
            updated_by := Option.some uid }
      let entries1 := replaceFirst
        (fun x => x.id == eid && x.user_id == uid) e1 db.entries
      Except.ok (e1, { db with entries := entries1 })

/-- cancel_deletion_request (task_entries.py lines 638-672): only from
PENDING_DELETION; restore the snapshotted status (APPROVED when the
snapshot is missing) and clear the deletion-request fields. -/
def cancel_deletion_request (db : Db) (uid eid : Nat) :
    Except String (TaskEntryRec × Db) :=
  match db.entries.find? (fun e => e.id == eid && e.user_id == uid) with
  | Option.none => Except.error "Task entry not found"
  | Option.some e =>
    if e.status ≠ Status.PENDING_DELETION then
      Except.error "Cannot cancel deletion for entries not pending deletion"
    else
      let e1 : TaskEntryRec :=
        { e with
            status := e.pre_deletion_status.getD Status.APPROVED,
            deletion_reason := Option.none,
            deletion_requested_at := Option.none,
            pre_deletion_status := Option.none,
            updated_by := Option.some uid }
      let entries1 := replaceFirst
        (fun x => x.id == eid && x.user_id == uid) e1 db.entries
      Except.ok (e1, { db with entries := entries1 })

/-- A keyword-rule violation on one line, per the code's classification:
a resolvable task type whose keyword class forbids the provided fields. -/
def keywordViolation (db : Db) (s : TaskSubEntryCreateIn) : Prop :=
  ∃ tm, db.taskMasters.find? (fun t => t.id == s.task_master_id) =
      Option.some tm ∧
    ((requires_hours_only tm.name = true ∧
        (s.hours ≤ 0 ∨ 0 < s.production)) ∨
     (requires_hours_only tm.name = false ∧
        requires_production_only tm.name = true ∧
        (s.production ≤ 0 ∨ 0 < s.hours)))

/-- A draft entry owned by employee 7, used in the lifecycle examples. -/
def entryDraft : TaskEntryRec :=
  { id := 1, user_id := 7, client_id := Option.some 2, work_date := 4,
    task_name := "Work", description := Option.none, total_hours := 4,
    status := Status.DRAFT, admin_comment := Option.none,
    approved_by := Option.none, approved_at := Option.none,
    is_overtime := false, overtime_hours := 0,
    deletion_reason := Option.none, deletion_requested_at := Option.none,
    pre_deletion_status := Option.none, created_by := Option.some 7,
    updated_by := Option.some 7 }

/-- The same entry after admin approval. -/
def entryApproved : TaskEntryRec :=
  { entryDraft with
      status := Status.APPROVED, total_hours := 8,
      approved_by := Option.some 9, approved_at := Option.some 100 }

/-- Store holding only the draft entry. -/
def db5 : Db := { emptyDb with entries := [entryDraft], nextId := 10 }

/-- Store holding the approved entry and the Coding task type. -/
def db8 : Db :=
  { emptyDb with
      entries := [entryApproved], taskMasters := [taskCoding],
      clients := [clientAcme], nextId := 10 }

/-- A ten-hour Coding line. -/
def subCoding10 : TaskSubEntryCreateIn :=
  { client_id := Option.some 2, title := "Long day",
    description := Option.none, hours := 10, production := 0,
    task_master_id := 3 }

/-- An edit request replacing the lines with the ten-hour Coding line. -/
def upd8 : TaskEntryUpdateIn :=
  { task_name := Option.none, description := Option.none,
    client_id := Option.none, sub_entries := Option.some [subCoding10] }

/-- A twenty-hour Coding line. -/
def sub20 : TaskSubEntryCreateIn :=
  { client_id := Option.some 2, title := "Marathon",
    description := Option.none, hours := 20, production := 0,
    task_master_id := 3 }

/-- A create request totalling 40 hours across two lines. -/
def inp40 : TaskEntryCreateIn :=
  { work_date := 4, task_name := "Work", description := Option.none,
    client_id := Option.none, sub_entries := [sub20, sub20] }

/-- A four-hour Coding line. -/
def subCoding4 : TaskSubEntryCreateIn :=
  { client_id := Option.some 2, title := "Day", description := Option.none,
    hours := 4, production := 0, task_master_id := 3 }

/-- A create request with one four-hour Coding line. -/
def inp4 : TaskEntryCreateIn :=
  { work_date := 4, task_name := "Work", description := Option.none,
    client_id := Option.none, sub_entries := [subCoding4] }

/-- A zero-hour Coding line. -/
def subCoding0 : TaskSubEntryCreateIn :=
  { client_id := Option.some 2, title := "Day", description := Option.none,
    hours := 0, production := 0, task_master_id := 3 }

/-- A create request whose only line books zero hours (schema-rejected). -/
def inpZero : TaskEntryCreateIn :=
  { work_date := 4, task_name := "Work", description := Option.none,
    client_id := Option.none, sub_entries := [subCoding0] }

/-- A task type whose name contains tech but none of the keywords named by
the specification (celebration, leave, meeting, training, technical). -/
def taskFintech : TaskRec :=
  { id := 3, name := "Fintech Analysis", is_active := true,
    is_profitable := true }

/-- Store with the Fintech Analysis task type. -/
def dbFintech : Db :=
  { emptyDb with
      users := [userAlice], clients := [clientAcme],
      taskMasters := [taskFintech] }

/-- A line booking two hours and a production count of 3. -/
def subFintech : TaskSubEntryCreateIn :=
  { client_id := Option.some 2, title := "A", description := Option.none,
    hours := 2, production := 3, task_master_id := 3 }

/-- A create request booking two hours and a production count of 3 on the
Fintech Analysis task. -/
def inpFintech : TaskEntryCreateIn :=
  { work_date := 4, task_name := "Analysis", description := Option.none,
    client_id := Option.none, sub_entries := [subFintech] }

/-- A line booking the Leave task type with both hours and production. -/
def subLeaveViol : TaskSubEntryCreateIn :=
  { client_id := Option.some 2, title := "x", description := Option.none,
    hours := 2, production := 1, task_master_id := 3 }

/-- A create request containing the violating Leave line. -/
def inpLeaveViol : TaskEntryCreateIn :=
  { work_date := 4, task_name := "W", description := Option.none,
    client_id := Option.none, sub_entries := [subLeaveViol] }

/-- An edit request containing the violating Leave line. -/
def updLeaveViol : TaskEntryUpdateIn :=
  { task_name := Option.none, description := Option.none,
    client_id := Option.none, sub_entries := Option.some [subLeaveViol] }

/-- Store with the draft entry and the Leave task type, for edits. -/
def dbEdit : Db :=
  { emptyDb with
      entries := [entryDraft], taskMasters := [taskLeave],
      clients := [clientAcme], nextId := 10 }

/-! ## Claims -/

/-- C1: the claim as stated is false for the bulk-ingestion calculator: on a
holiday with exactly 8 hours it returns APPROVED (auto-approval), not
PENDING, even though the day is non-working and the hours are all counted
as overtime. -/
theorem c1_counterexample_bulk_eight_on_holiday :
    is_non_working dbHol 0 = true ∧ (0 : ℚ) < 8 ∧ (8 : ℚ) ≤ 24 ∧
    BulkUpload.calculate_task_status dbHol 0 8 = (Status.APPROVED, true, 8) ∧
    ¬ BulkUpload.calculate_task_status dbHol 0 8 = (Status.PENDING, true, 8) := by
  decide

/-- C1 (amended): on a non-working date with 0 < h ≤ 24 the entry-creation
calculator always returns (PENDING, true, h), including h = 8; the
bulk-ingestion calculator returns (PENDING, true, h) for h ≠ 8 but
(APPROVED, true, h) for h = 8 exactly. -/
theorem c1_amended_nonworking_day_evaluation (db : Db) (d : Int) (h : ℚ)
    (hnw : is_non_working db d = true) (h0 : 0 < h) (h24 : h ≤ 24) :
    TaskEntries.calculate_task_status db d h = (Status.PENDING, true, h)
    ∧ (h ≠ 8 →
        BulkUpload.calculate_task_status db d h = (Status.PENDING, true, h))
    ∧ (h = 8 →
        BulkUpload.calculate_task_status db d h = (Status.APPROVED, true, h)) := by
  have hcases :
      is_holiday d db = true ∨ pyWeekday d = 6 ∨
        (pyWeekday d = 5 ∧ is_working_saturday d db = false) := by
    simp only [is_non_working, Bool.or_eq_true, Bool.and_eq_true,
      Bool.not_eq_true', Bool.and_eq_false_iff, beq_iff_eq] at hnw
    rcases hnw with (hh | hh) | hh
    · exact Or.inl hh
    · exact Or.inr (Or.inl hh)
    · rcases hh with ⟨h5, h6⟩
      rcases h6 with h6 | h6
      · exact absurd h5 (by simpa using h6)
      · exact Or.inr (Or.inr ⟨h5, h6⟩)
  refine ⟨by simp [TaskEntries.calculate_task_status, hnw], ?_, ?_⟩
  · intro hne
    rcases hcases with hh | hh | ⟨h5, hws⟩
    · simp [BulkUpload.calculate_task_status, hh, hne]
    · have h5 : ¬ pyWeekday d = 5 := by omega
      simp [BulkUpload.calculate_task_status, hh, h5, hne]
    · simp [BulkUpload.calculate_task_status, h5, hws, hne]
  · intro he
    subst he
    rcases hcases with hh | hh | ⟨h5, hws⟩
    · simp [BulkUpload.calculate_task_status, hh]
    · have h5 : ¬ pyWeekday d = 5 := by omega
      simp [BulkUpload.calculate_task_status, hh, h5]
    · simp [BulkUpload.calculate_task_status, h5, hws]

/-- C1 (amended) at a concrete input: epoch day 0 is a holiday in dbHol. -/
theorem c1_amended_witness :
    is_non_working dbHol 0 = true ∧
    TaskEntries.calculate_task_status dbHol 0 4 = (Status.PENDING, true, 4) ∧
    BulkUpload.calculate_task_status dbHol 0 4 = (Status.PENDING, true, 4) ∧
    BulkUpload.calculate_task_status dbHol 0 8 = (Status.APPROVED, true, 8) :=
  ⟨by decide,
   (c1_amended_nonworking_day_evaluation dbHol 0 4 (by decide) (by norm_num)
      (by norm_num)).1,
   (c1_amended_nonworking_day_evaluation dbHol 0 4 (by decide) (by norm_num)
      (by norm_num)).2.1 (by norm_num),
   (c1_amended_nonworking_day_evaluation dbHol 0 8 (by decide) (by norm_num)
      (by norm_num)).2.2 rfl⟩

/-- C2: the two calculator implementations are not pointwise equal: on a
holiday with exactly 8 hours the entry-lifecycle one returns PENDING while
the bulk-ingestion one returns APPROVED. -/
theorem c2_counterexample_divergence_at_eight :
    (0 : ℚ) < 8 ∧ (8 : ℚ) ≤ 24 ∧
    TaskEntries.calculate_task_status dbHol 0 8 = (Status.PENDING, true, 8) ∧
    BulkUpload.calculate_task_status dbHol 0 8 = (Status.APPROVED, true, 8) ∧
    ¬ TaskEntries.calculate_task_status dbHol 0 8 =
        BulkUpload.calculate_task_status dbHol 0 8 := by
  decide

/-- C2 (amended): for 0 < h ≤ 24 the two calculators always agree on the
overtime flag and the overtime hours, and they return identical triples
except in exactly two regions, where only the status differs (lifecycle
PENDING versus bulk APPROVED): a non-working day with h = 8, and a
designated working Saturday (not a holiday) with h < 8. -/
theorem c2_amended_calculator_agreement (db : Db) (d : Int) (h : ℚ)
    (h0 : 0 < h) (h24 : h ≤ 24) :
    ((TaskEntries.calculate_task_status db d h).2 =
      (BulkUpload.calculate_task_status db d h).2)
    ∧ (¬ (is_non_working db d = true ∧ h = 8) →
       ¬ (is_holiday d db = false ∧ pyWeekday d = 5 ∧
            is_working_saturday d db = true ∧ h < 8) →
       TaskEntries.calculate_task_status db d h =
         BulkUpload.calculate_task_status db d h)
    ∧ ((is_non_working db d = true ∧ h = 8) →
        (TaskEntries.calculate_task_status db d h).1 = Status.PENDING ∧
        (BulkUpload.calculate_task_status db d h).1 = Status.APPROVED)
    ∧ ((is_holiday d db = false ∧ pyWeekday d = 5 ∧
          is_working_saturday d db = true ∧ h < 8) →
        (TaskEntries.calculate_task_status db d h).1 = Status.PENDING ∧
        (BulkUpload.calculate_task_status db d h).1 = Status.APPROVED) := by
  have hnwchar : is_non_working db d = true ↔
      (is_holiday d db = true ∨ pyWeekday d = 6 ∨
        (pyWeekday d = 5 ∧ is_working_saturday d db = false)) := by
    simp only [is_non_working, Bool.or_eq_true, Bool.and_eq_true,
      Bool.not_eq_true', Bool.and_eq_false_iff, beq_iff_eq]
    constructor
    · rintro ((hh | hh) | hh)
      · exact Or.inl hh
      · exact Or.inr (Or.inl hh)
      · rcases hh with ⟨h5, h6 | h6⟩
        · exact absurd h5 (by simpa using h6)
        · exact Or.inr (Or.inr ⟨h5, h6⟩)
    · rintro (hh | hh | ⟨h5, h6⟩)
      · exact Or.inl (Or.inl hh)
      · exact Or.inl (Or.inr hh)
      · exact Or.inr ⟨h5, Or.inr h6⟩
  by_cases hol : is_holiday d db = true
  · by_cases he : h = 8
    · subst he
      refine ⟨by simp [TaskEntries.calculate_task_status,
          BulkUpload.calculate_task_status, hnwchar, hol], ?_, ?_, ?_⟩
      · intro hc _
        exact absurd ⟨hnwchar.mpr (Or.inl hol), rfl⟩ hc
      · intro _
        simp [TaskEntries.calculate_task_status,
          BulkUpload.calculate_task_status, hnwchar, hol]
      · rintro ⟨hf, _⟩
        simp [hol] at hf
    · refine ⟨by simp [TaskEntries.calculate_task_status,
          BulkUpload.calculate_task_status, hnwchar, hol, he], ?_, ?_, ?_⟩
      · intro _ _
        simp [TaskEntries.calculate_task_status,
          BulkUpload.calculate_task_status, hnwchar, hol, he]
      · rintro ⟨_, hf⟩
        exact absurd hf he
      · rintro ⟨hf, _⟩
        simp [hol] at hf
  · have hol' : is_holiday d db = false := by simpa using hol
    by_cases hsat : pyWeekday d = 5
    · have hsun : ¬ pyWeekday d = 6 := by omega
      by_cases hws : is_working_saturday d db = true
      · -- designated working Saturday
        have hnw : is_non_working db d = false := by
          rw [Bool.eq_false_iff]
          intro hc
          rcases hnwchar.mp hc with hh | hh | ⟨_, hh⟩
          · exact absurd hh (by simp [hol'])
          · exact hsun hh
          · rw [hws] at hh; cases hh
        rcases lt_trichotomy h 8 with hlt | heq | hgt
        · refine ⟨by simp [TaskEntries.calculate_task_status,
              BulkUpload.calculate_task_status, hnw, hol', hsat, hws,
              ne_of_lt hlt, not_lt.mpr (le_of_lt hlt), le_of_lt hlt], ?_, ?_, ?_⟩
          · intro _ hc
            exact absurd ⟨hol', hsat, hws, hlt⟩ hc
          · rintro ⟨hf, _⟩
            rw [hnw] at hf; cases hf
          · intro _
            constructor
            · simp [TaskEntries.calculate_task_status, hnw, ne_of_lt hlt,
                not_lt.mpr (le_of_lt hlt)]
            · simp [BulkUpload.calculate_task_status, hol', hsat, hws,
                ne_of_lt hlt, not_lt.mpr (le_of_lt hlt), le_of_lt hlt]
        · subst heq
          refine ⟨by simp [TaskEntries.calculate_task_status,
              BulkUpload.calculate_task_status, hnw, hol', hsat, hws], ?_, ?_, ?_⟩
          · intro _ _
            simp [TaskEntries.calculate_task_status,
              BulkUpload.calculate_task_status, hnw, hol', hsat, hws]
          · rintro ⟨hf, _⟩
            rw [hnw] at hf; cases hf
          · rintro ⟨_, _, _, hf⟩
            norm_num at hf
        · refine ⟨by simp [TaskEntries.calculate_task_status,
              BulkUpload.calculate_task_status, hnw, hol', hsat, hws,
              ne_of_gt hgt, hgt], ?_, ?_, ?_⟩
          · intro _ _
            simp [TaskEntries.calculate_task_status,
              BulkUpload.calculate_task_status, hnw, hol', hsat, hws,
              ne_of_gt hgt, hgt]
          · rintro ⟨hf, _⟩
            rw [hnw] at hf; cases hf
          · rintro ⟨_, _, _, hf⟩
            exact absurd hf (not_lt.mpr (le_of_lt hgt))
      · -- plain (non-working) Saturday
        have hws' : is_working_saturday d db = false := by simpa using hws
        have hnw : is_non_working db d = true :=
          hnwchar.mpr (Or.inr (Or.inr ⟨hsat, hws'⟩))
        by_cases he : h = 8
        · subst he
          refine ⟨by simp [TaskEntries.calculate_task_status,
              BulkUpload.calculate_task_status, hnw, hol', hsat, hws'], ?_, ?_, ?_⟩
          · intro hc _
            exact absurd ⟨hnw, rfl⟩ hc
          · intro _
            simp [TaskEntries.calculate_task_status,
              BulkUpload.calculate_task_status, hnw, hol', hsat, hws']
          · rintro ⟨_, _, hf, _⟩
            rw [hws'] at hf; cases hf
        · refine ⟨by simp [TaskEntries.calculate_task_status,
              BulkUpload.calculate_task_status, hnw, hol', hsat, hws', he], ?_, ?_, ?_⟩
          · intro _ _
            simp [TaskEntries.calculate_task_status,
              BulkUpload.calculate_task_status, hnw, hol', hsat, hws', he]
          · rintro ⟨_, hf⟩
            exact absurd hf he
          · rintro ⟨_, _, hf, _⟩
            rw [hws'] at hf; cases hf
    · -- not a Saturday
      by_cases hsun : pyWeekday d = 6
      · have hnw : is_non_working db d = true :=
          hnwchar.mpr (Or.inr (Or.inl hsun))
        by_cases he : h = 8
        · subst he
          refine ⟨by simp [TaskEntries.calculate_task_status,
              BulkUpload.calculate_task_status, hnw, hol', hsat, hsun], ?_, ?_, ?_⟩
          · intro hc _
            exact absurd ⟨hnw, rfl⟩ hc
          · intro _
            simp [TaskEntries.calculate_task_status,
              BulkUpload.calculate_task_status, hnw, hol', hsat, hsun]
          · rintro ⟨_, hf, _⟩
            exact absurd hf hsat
        · refine ⟨by simp [TaskEntries.calculate_task_status,
              BulkUpload.calculate_task_status, hnw, hol', hsat, hsun, he], ?_, ?_, ?_⟩
          · intro _ _
            simp [TaskEntries.calculate_task_status,
              BulkUpload.calculate_task_status, hnw, hol', hsat, hsun, he]
          · rintro ⟨_, hf⟩
            exact absurd hf he
          · rintro ⟨_, hf, _⟩
            exact absurd hf hsat
      · -- ordinary weekday
        have hnw : is_non_working db d = false := by
          rw [Bool.eq_false_iff]
          intro hc
          rcases hnwchar.mp hc with hh | hh | ⟨hh, _⟩
          · exact absurd hh (by simp [hol'])
          · exact hsun hh
          · exact hsat hh
        have key : TaskEntries.calculate_task_status db d h =
            BulkUpload.calculate_task_status db d h := by
          rcases lt_trichotomy h 8 with hlt | heq | hgt
          · simp [TaskEntries.calculate_task_status,
              BulkUpload.calculate_task_status, hnw, hol', hsat, hsun,
              ne_of_lt hlt, not_lt.mpr (le_of_lt hlt)]
          · subst heq
            simp [TaskEntries.calculate_task_status,
              BulkUpload.calculate_task_status, hnw, hol', hsat, hsun]
          · simp [TaskEntries.calculate_task_status,
              BulkUpload.calculate_task_status, hnw, hol', hsat, hsun,
              ne_of_gt hgt, hgt]
        refine ⟨by rw [key], fun _ _ => key, ?_, ?_⟩
        · rintro ⟨hf, _⟩
          rw [hnw] at hf; cases hf
        · rintro ⟨_, hf, _⟩
          exact absurd hf hsat

/-- C2 (amended) at concrete inputs: an ordinary Tuesday (epoch day 5), on
which both calculators agree, instantiated with 9.5 hours. -/
theorem c2_amended_witness :
    (0 : ℚ) < 19/2 ∧ (19/2 : ℚ) ≤ 24 ∧
    TaskEntries.calculate_task_status emptyDb 5 (19/2) =
      BulkUpload.calculate_task_status emptyDb 5 (19/2) :=
  ⟨by norm_num, by norm_num,
   (c2_amended_calculator_agreement emptyDb 5 (19/2) (by norm_num)
      (by norm_num)).2.1 (by decide) (by decide)⟩

/-- Phase 1 appends exactly one result row per non-empty input row,
whatever the coder_name_str binding is when it starts. -/
theorem phase1_length (db : Db) (rows : List (List Cell)) :
    ∀ bound, (phase1 db bound rows).length =
      (rows.filter (fun r => r.any Cell.truthy)).length := by
  induction rows with
  | nil => intro _; rfl
  | cons r rs ih =>
    intro bound
    cases h : r.any Cell.truthy with
    | true => simp [phase1, h, ih]
    | false => simp [phase1, h, ih]

/-- Each non-empty row contributes, in order, the result of its own
processing at the binding then in force. -/
theorem phase1_forall2 (db : Db) (rows : List (List Cell)) :
    ∀ bound,
      List.Forall₂ (fun (row : List Cell) (r : RowResult) =>
          ∃ b pe b', processRow db b row = ((r, pe), b'))
        (rows.filter (fun r => r.any Cell.truthy))
        ((phase1 db bound rows).map Prod.fst) := by
  induction rows with
  | nil => intro _; exact List.Forall₂.nil
  | cons r rs ih =>
    intro bound
    cases h : r.any Cell.truthy with
    | true =>
      simp only [phase1, h, if_true, List.filter_cons_of_pos,
        List.map_cons]
      exact List.Forall₂.cons
        ⟨bound, (processRow db bound r).1.2, (processRow db bound r).2, rfl⟩
        (ih _)
    | false =>
      simp only [phase1, h]
      simpa [List.filter_cons, h] using ih bound

/-- C3: if any row fails phase-1 validation the pipeline writes nothing,
reports successful = 0, and returns one result per non-empty row (each the
processing of its own row); and if the commit itself fails, the rollback
leaves the store unchanged with successful = 0. -/
theorem c3_bulk_all_or_nothing (db : Db) (adminId : Nat)
    (rows : List (List Cell)) (commitOk : Bool) :
    (((phase1 db Option.none rows).map Prod.fst).any
        (fun r => !r.success) = true →
      (upload_task_entries db adminId rows commitOk).2 = db ∧
      (upload_task_entries db adminId rows commitOk).1.successful = 0 ∧
      (upload_task_entries db adminId rows commitOk).1.results =
        (phase1 db Option.none rows).map Prod.fst ∧
      (upload_task_entries db adminId rows commitOk).1.results.length =
        (rows.filter (fun r => r.any Cell.truthy)).length ∧
      List.Forall₂ (fun (row : List Cell) (r : RowResult) =>
          ∃ b pe b', processRow db b row = ((r, pe), b'))
        (rows.filter (fun r => r.any Cell.truthy))
        (upload_task_entries db adminId rows commitOk).1.results)
    ∧ (commitOk = false →
      (upload_task_entries db adminId rows commitOk).2 = db ∧
      (upload_task_entries db adminId rows commitOk).1.successful = 0) := by
  constructor
  · intro herr
    have hres : (upload_task_entries db adminId rows commitOk).1.results =
        (phase1 db Option.none rows).map Prod.fst := by
      simp [upload_task_entries, herr]
    refine ⟨?_, ?_, hres, ?_, ?_⟩
    · simp [upload_task_entries, herr]
    · simp [upload_task_entries, herr]
    · rw [hres, List.length_map]
      exact phase1_length db rows Option.none
    · rw [hres]
      exact phase1_forall2 db rows Option.none
  · intro hco
    subst hco
    by_cases herr : ((phase1 db Option.none rows).map Prod.fst).any
        (fun r => !r.success) = true
    · constructor <;> simp [upload_task_entries, herr]
    · have herr' : ((phase1 db Option.none rows).map Prod.fst).any
          (fun r => !r.success) = false :=
        Bool.not_eq_true _ ▸ Bool.eq_false_iff.mpr herr
      constructor <;> simp [upload_task_entries, herr']

/-- C3 at concrete inputs: a one-row batch whose row is short fails
validation and writes nothing; a valid one-row batch with a failing commit
also writes nothing. -/
theorem c3_bulk_all_or_nothing_witness :
    (((phase1 dbBulk Option.none [[Cell.text "x"]]).map Prod.fst).any
        (fun r => !r.success) = true)
    ∧ (upload_task_entries dbBulk 9 [[Cell.text "x"]] true).2 = dbBulk
    ∧ (upload_task_entries dbBulk 9 [[Cell.text "x"]] true).1.successful = 0
    ∧ (upload_task_entries dbBulk 9 [[Cell.text "x"]] true).1.results =
        (phase1 dbBulk Option.none [[Cell.text "x"]]).map Prod.fst
    ∧ (upload_task_entries dbBulk 9 [[Cell.text "x"]] true).1.results.length =
        ([[Cell.text "x"]].filter (fun r => r.any Cell.truthy)).length
    ∧ (upload_task_entries dbBulk 9 [rowMonday] false).2 = dbBulk
    ∧ (upload_task_entries dbBulk 9 [rowMonday] false).1.successful = 0 := by
  have h1 := (c3_bulk_all_or_nothing dbBulk 9 [[Cell.text "x"]] true).1 (by decide)
  have h2 := (c3_bulk_all_or_nothing dbBulk 9 [rowMonday] false).2 rfl
  exact ⟨by decide, h1.1, h1.2.1, h1.2.2.1, h1.2.2.2.1, h2.1, h2.2⟩

/-- C10: the claim's consequence is false: a Count cell holding the text
value 0 passes the required-field check (a non-empty string is truthy),
parses to zero, and the batch (its user resolved through the coder-name
fallback, binding coder_name_str) commits an imported line with
production 0. -/
theorem c10_counterexample_text_zero_count :
    rowTextZeroCount.get? 5 = Option.some (Cell.text "0")
    ∧ (upload_task_entries dbBulk 9 [rowTextZeroCount] true).1.successful = 1
    ∧ ((upload_task_entries dbBulk 9 [rowTextZeroCount] true).2.subEntries.map
        (fun s => s.production)) = [0] := by
  decide

/-- C10 (amended): a Count or Time cell holding the numeric value 0 is
falsy, so the row fails the required-field check exactly like an absent
cell and produces no pending entry, at every coder_name_str binding; but
the consequence claimed for committed batches does not hold, because a
cell holding the text 0 is truthy, parses to zero, and is committed
(hours or production 0). -/
theorem c10_amended_numeric_zero_is_missing (db : Db) (bound : Option String)
    (c0 c1 c2 c3 c4 c5 c6 : Cell) (rest : List Cell)
    (hz : c5 = Cell.num 0 ∨ c6 = Cell.num 0) :
    (processRow db bound
        (c0 :: c1 :: c2 :: c3 :: c4 :: c5 :: c6 :: rest)).1.1.success
        = false
    ∧ (processRow db bound
        (c0 :: c1 :: c2 :: c3 :: c4 :: c5 :: c6 :: rest)).1.1.message
        = "Missing required fields (Date, Coder Name, Client, Task, Count, Time)"
    ∧ (processRow db bound
        (c0 :: c1 :: c2 :: c3 :: c4 :: c5 :: c6 :: rest)).1.2
        = Option.none
    ∧ ((upload_task_entries dbBulk 9 [rowTextZeroCount] true).1.successful = 1
       ∧ ((upload_task_entries dbBulk 9 [rowTextZeroCount] true).2.subEntries.map
           (fun s => s.production)) = [0]) := by
  have ht : (c0.truthy && c1.truthy && c2.truthy && c3.truthy &&
      c4.truthy && c5.truthy && c6.truthy) = false := by
    rcases hz with rfl | rfl <;> simp [Cell.truthy]
  refine ⟨?_, ?_, ?_, by decide⟩ <;> simp [processRow, ht]

/-- C10 (amended) at a concrete input: a row whose Count cell is the
number 0. -/
theorem c10_amended_witness :
    (processRow dbBulk Option.none
        [Cell.dateCell 4, Cell.text "smith", Cell.text "Alice Smith",
         Cell.text "Acme", Cell.text "Coding", Cell.num 0,
         Cell.num 4]).1.1.success = false
    ∧ (processRow dbBulk Option.none
        [Cell.dateCell 4, Cell.text "smith", Cell.text "Alice Smith",
         Cell.text "Acme", Cell.text "Coding", Cell.num 0,
         Cell.num 4]).1.1.message
        = "Missing required fields (Date, Coder Name, Client, Task, Count, Time)" :=
  have h := c10_amended_numeric_zero_is_missing dbBulk Option.none
    (Cell.dateCell 4) (Cell.text "smith") (Cell.text "Alice Smith")
    (Cell.text "Acme") (Cell.text "Coding") (Cell.num 0) (Cell.num 4) []
    (Or.inl rfl)
  ⟨h.1, h.2.1⟩

/-- replaceFirst keeps the list length. -/
theorem length_replaceFirst {α : Type} (p : α → Bool) (a : α) (l : List α) :
    (replaceFirst p a l).length = l.length := by
  induction l with
  | nil => rfl
  | cons x xs ih =>
    by_cases hx : p x = true
    · simp [replaceFirst, hx]
    · simp [replaceFirst, hx, ih]

/-- After replacing the found element, the same search finds the
replacement, provided the replacement still satisfies the predicate. -/
theorem find?_replaceFirst {α : Type} (p : α → Bool) (a : α) (l : List α)
    (e : α) (hl : l.find? p = Option.some e) (ha : p a = true) :
    (replaceFirst p a l).find? p = Option.some a := by
  induction l with
  | nil => cases hl
  | cons x xs ih =>
    by_cases hx : p x = true
    · rw [replaceFirst, if_pos hx]
      exact List.find?_cons_of_pos _ ha
    · have hx' : p x = false := by simpa using hx
      rw [List.find?_cons_of_neg _ (by simp [hx'])] at hl
      rw [replaceFirst, if_neg (by simp [hx'])]
      rw [List.find?_cons_of_neg _ (by simp [hx'])]
      exact ih hl

/-- C5: the claim as stated is false: the employee self-service DELETE on
a Draft entry does not remove it; it marks it PENDING_DELETION with a
status snapshot, and the entry (still one entry in the store) awaits admin
approval. -/
theorem c5_counterexample_delete_is_request :
    entryDraft.status = Status.DRAFT
    ∧ ((request_task_entry_deletion db5 7 1 (Option.some "mistake") 50).toOption.map
        (fun pr => (pr.1.status, pr.1.pre_deletion_status, pr.2.entries.length)))
      = Option.some (Status.PENDING_DELETION, Option.some Status.DRAFT, 1) := by
  decide

/-- C5 (amended): for every entry not already PendingDeletion — Draft,
Pending, Rejected or Approved alike — the employee delete endpoint records
a deletion request instead of removing anything: it snapshots the current
status, sets PENDING_DELETION, stores reason and timestamp, and leaves the
number of stored entries unchanged; removal happens only through the
admin flows. -/
theorem c5_amended_delete_requests_deletion (db : Db) (uid eid : Nat)
    (reason : Option String) (now : Int) (e : TaskEntryRec)
    (hfind : db.entries.find? (fun x => x.id == eid && x.user_id == uid)
      = Option.some e)
    (hne : e.status ≠ Status.PENDING_DELETION) :
    ∃ e1 db1,
      request_task_entry_deletion db uid eid reason now = Except.ok (e1, db1)
      ∧ e1.status = Status.PENDING_DELETION
      ∧ e1.pre_deletion_status = Option.some e.status
      ∧ e1.deletion_reason = reason
      ∧ e1.deletion_requested_at = Option.some now
      ∧ db1.entries.length = db.entries.length := by
  simp only [request_task_entry_deletion, hfind, if_neg hne]
  exact ⟨_, _, rfl, rfl, rfl, rfl, rfl, length_replaceFirst _ _ _⟩

/-- C5 (amended) at a concrete input: the draft entry of db5. -/
theorem c5_amended_witness :
    ∃ e1 db1,
      request_task_entry_deletion db5 7 1 (Option.some "mistake") 50
        = Except.ok (e1, db1)
      ∧ e1.status = Status.PENDING_DELETION
      ∧ e1.pre_deletion_status = Option.some entryDraft.status
      ∧ e1.deletion_reason = Option.some "mistake"
      ∧ e1.deletion_requested_at = Option.some 50
      ∧ db1.entries.length = db5.entries.length :=
  c5_amended_delete_requests_deletion db5 7 1 (Option.some "mistake") 50
    entryDraft (by decide) (by decide)

/-- C7: requesting deletion and immediately cancelling restores the status
and the three deletion-request fields exactly. The hypotheses that the
fields start out clear state the store invariant for entries outside
PENDING_DELETION: entries are created with the fields null and every
transition out of PENDING_DELETION (cancel, admin reject-deletion) clears
them. -/
theorem c7_request_cancel_roundtrip (db : Db) (uid eid : Nat)
    (reason : Option String) (now : Int) (e : TaskEntryRec)
    (hfind : db.entries.find? (fun x => x.id == eid && x.user_id == uid)
      = Option.some e)
    (hne : e.status ≠ Status.PENDING_DELETION)
    (hdr : e.deletion_reason = Option.none)
    (hda : e.deletion_requested_at = Option.none)
    (hps : e.pre_deletion_status = Option.none) :
    ∃ e1 db1,
      request_task_entry_deletion db uid eid reason now = Except.ok (e1, db1)
      ∧ ∃ e2 db2,
        cancel_deletion_request db1 uid eid = Except.ok (e2, db2)
        ∧ e2.status = e.status
        ∧ e2.deletion_reason = e.deletion_reason
        ∧ e2.deletion_requested_at = e.deletion_requested_at
        ∧ e2.pre_deletion_status = e.pre_deletion_status := by
  have hp : (fun x : TaskEntryRec => x.id == eid && x.user_id == uid) e
      = true := by
    simpa using List.find?_some hfind
  simp only [request_task_entry_deletion, hfind, if_neg hne]
  refine ⟨_, _, rfl, ?_⟩
  have hfind1 := find?_replaceFirst
    (fun x : TaskEntryRec => x.id == eid && x.user_id == uid)
    { e with
        pre_deletion_status := Option.some e.status,
        status := Status.PENDING_DELETION,
        deletion_requested_at := Option.some now,
        deletion_reason := reason,
        updated_by := Option.some uid }
    db.entries e hfind hp
  simp only [cancel_deletion_request, hfind1]
  rw [if_neg (by simp)]
  exact ⟨_, _, rfl, rfl, hdr.symm, hda.symm, hps.symm⟩

/-- C7 at a concrete input: the draft entry of db5 with a reason and a
timestamp. -/
theorem c7_request_cancel_roundtrip_witness :
    ∃ e1 db1,
      request_task_entry_deletion db5 7 1 (Option.some "typo") 60
        = Except.ok (e1, db1)
      ∧ ∃ e2 db2,
        cancel_deletion_request db1 7 1 = Except.ok (e2, db2)
        ∧ e2.status = entryDraft.status
        ∧ e2.deletion_reason = entryDraft.deletion_reason
        ∧ e2.deletion_requested_at = entryDraft.deletion_requested_at
        ∧ e2.pre_deletion_status = entryDraft.pre_deletion_status :=
  c7_request_cancel_roundtrip db5 7 1 (Option.some "typo") 60 entryDraft
    (by decide) (by decide) (by decide) (by decide) (by decide)

/-- C8: the claim as stated is false: an Edit of an entry whose status is
Approved is rejected outright by the status guard — no overtime refresh
happens (here replacing the lines with a ten-hour line, which would have
set is_overtime, yields only an error). -/
theorem c8_counterexample_edit_approved_rejected :
    entryApproved.status = Status.APPROVED
    ∧ taskEntryUpdateSchemaValid upd8 = true
    ∧ updateEntryRequest db8 7 1 upd8
      = Except.error "Cannot edit approved task entries" := by
  decide

/-- C8 (amended): Edit on an entry whose current status is Approved always
fails with an error (the guard admits only Draft, Pending and Rejected,
and the update payload cannot carry a status), so the code branch that
would keep the Approved status while refreshing the overtime fields is
unreachable through this endpoint. -/
theorem c8_amended_edit_approved_guard (db : Db) (uid eid : Nat)
    (u : TaskEntryUpdateIn) (e : TaskEntryRec)
    (hfind : db.entries.find? (fun x => x.id == eid && x.user_id == uid)
      = Option.some e)
    (happ : e.status = Status.APPROVED) :
    (∃ msg, updateEntryRequest db uid eid u = Except.error msg)
    ∧ (taskEntryUpdateSchemaValid u = true →
        updateEntryRequest db uid eid u =
          Except.error "Cannot edit approved task entries") := by
  by_cases hsv : taskEntryUpdateSchemaValid u = true
  · have hguard : (decide (e.status = Status.DRAFT)
        || decide (e.status = Status.PENDING)
        || decide (e.status = Status.REJECTED)) = false := by
      rw [happ]; decide
    have hupd : updateEntryRequest db uid eid u =
        Except.error "Cannot edit approved task entries" := by
      simp only [updateEntryRequest, if_pos hsv, update_task_entry, hfind,
        hguard]
      simp
    exact ⟨⟨_, hupd⟩, fun _ => hupd⟩
  · have hupd : updateEntryRequest db uid eid u =
        Except.error "Unprocessable entity: request body validation failed" := by
      simp [updateEntryRequest, hsv]
    exact ⟨⟨_, hupd⟩, fun h => absurd h hsv⟩

/-- C8 (amended) at a concrete input: the approved entry of db8. -/
theorem c8_amended_witness :
    (∃ msg, updateEntryRequest db8 7 1 upd8 = Except.error msg)
    ∧ updateEntryRequest db8 7 1 upd8
      = Except.error "Cannot edit approved task entries" :=
  have h := c8_amended_edit_approved_guard db8 7 1 upd8 entryApproved
    (by decide) (by decide)
  ⟨h.1, h.2 (by decide)⟩

/-- C9: the claim as stated is false: a create request of two twenty-hour
lines (total 40 > 24) passes the schema validation (which bounds each line
by 24 but only lower-bounds the total) and is persisted. -/
theorem c9_counterexample_total_forty_accepted :
    totalHours inp40.sub_entries = 40
    ∧ ¬ totalHours inp40.sub_entries ≤ 24
    ∧ (createEntryRequest dbBulk 7 inp40).isOk = true := by
  decide

/-- C9 (amended): CreateEntry accepts an input only if the sum of its line
hours is strictly positive and each individual line is between 0 and 24
hours; an input whose total is zero or negative is rejected with a
validation error. There is no upper bound on the total itself. -/
theorem c9_amended_total_hours_bounds (db : Db) (uid : Nat)
    (inp : TaskEntryCreateIn) :
    ((createEntryRequest db uid inp).isOk = true →
      0 < totalHours inp.sub_entries ∧
      ∀ s ∈ inp.sub_entries, s.hours ≤ 24)
    ∧ (totalHours inp.sub_entries ≤ 0 →
      ∃ msg, createEntryRequest db uid inp = Except.error msg) := by
  constructor
  · intro hok
    have hsv : taskEntryCreateSchemaValid inp = true := by
      cases h : taskEntryCreateSchemaValid inp with
      | true => rfl
      | false =>
        rw [createEntryRequest, h] at hok
        simp [Except.isOk, Except.toBool] at hok
    unfold taskEntryCreateSchemaValid at hsv
    rw [Bool.and_eq_true, Bool.and_eq_true] at hsv
    obtain ⟨⟨_, hall⟩, hpos⟩ := hsv
    refine ⟨of_decide_eq_true hpos, ?_⟩
    intro s hs
    have hvs := List.all_eq_true.mp hall s hs
    exact (of_decide_eq_true hvs).2.1
  · intro hle
    have hsv : taskEntryCreateSchemaValid inp = false := by
      unfold taskEntryCreateSchemaValid
      have hd : decide (0 < totalHours inp.sub_entries) = false :=
        decide_eq_false (not_lt.mpr hle)
      simp [hd]
    refine ⟨"Unprocessable entity: request body validation failed", ?_⟩
    simp [createEntryRequest, hsv]

/-- C9 (amended) at concrete inputs: a valid four-hour request is accepted
with a positive total; a zero-hour request is rejected. -/
theorem c9_amended_witness :
    ((createEntryRequest dbBulk 7 inp4).isOk = true
      ∧ 0 < totalHours inp4.sub_entries
      ∧ ∀ s ∈ inp4.sub_entries, s.hours ≤ 24)
    ∧ (totalHours inpZero.sub_entries ≤ 0
      ∧ ∃ msg, createEntryRequest dbBulk 7 inpZero = Except.error msg) := by
  constructor
  · have h := (c9_amended_total_hours_bounds dbBulk 7 inp4).1 (by decide)
    exact ⟨by decide, h.1, h.2⟩
  · exact ⟨by decide,
      (c9_amended_total_hours_bounds dbBulk 7 inpZero).2 (by decide)⟩

/-- Any line violating the keyword rule makes the shared validation loop
report an error (possibly for an earlier line). -/
theorem validateSubs_isSome_of_violation (db : Db)
    (subs : List TaskSubEntryCreateIn)
    (h : ∃ s ∈ subs, keywordViolation db s) :
    (validateSubs db subs).isSome := by
  induction subs with
  | nil => rcases h with ⟨s, hs, _⟩; cases hs
  | cons a l ih =>
    rcases h with ⟨s, hs, hv⟩
    rcases List.mem_cons.mp hs with rfl | hs'
    · rcases hv with ⟨tm, htm, hcase⟩
      rw [validateSubs, htm]
      rcases hcase with ⟨hro, hor⟩ | ⟨hro, hpo, hor⟩
      · by_cases hh : s.hours ≤ 0
        · simp [hro, hh]
        · rcases hor with hor | hor
          · exact absurd hor hh
          · simp [hro, hh, hor]
      · by_cases hh : s.production ≤ 0
        · simp [hro, hpo, hh]
        · rcases hor with hor | hor
          · exact absurd hor hh
          · simp [hro, hpo, hh, hor]
    · rcases hfind : db.taskMasters.find? (fun t => t.id == a.task_master_id)
        with _ | tm
      · rw [validateSubs, hfind]
        rfl
      · rw [validateSubs, hfind]
        dsimp only
        split_ifs <;> first | rfl | exact ih ⟨s, hs', hv⟩

/-- C6: the claim as stated is false twice over at concrete inputs: the
task name Fintech Analysis contains none of the keywords the claim lists,
yet Create rejects its line for carrying a production value (the code
keyword is tech, not technical); and bulk ingestion applies no keyword
rule at all — it commits a Leave line carrying production 5 and 2 hours,
which the rule forbids. -/
theorem c6_counterexample_keyword_rule :
    (["celebration", "leave", "meeting", "training", "technical"].all
      (fun kw => !strContains (toLowerStr "Fintech Analysis") kw)) = true
    ∧ createEntryRequest dbFintech 7 inpFintech
      = Except.error "Task does not require production value"
    ∧ requires_hours_only "Leave" = true
    ∧ (upload_task_entries dbLeave 9 [rowLeaveWithProduction] true).1.successful = 1
    ∧ ((upload_task_entries dbLeave 9 [rowLeaveWithProduction] true).2.subEntries.map
        (fun s => (s.title, s.hours, s.production))) = [("Leave", 2, 5)] := by
  decide

/-- C6 (amended): the keyword rule is enforced at Create and at Edit with
the code's keyword classes (hours-only: celebration, leave, meeting, tech,
technical issue, training — so any name containing tech; production-only:
gp task), and a violating line always yields a validation error there; but
Bulk Ingestion performs no task-type field-requirement validation and
commits violating lines unchanged. -/
theorem c6_amended_keyword_rule_scope :
    (∀ (db : Db) (uid : Nat) (inp : TaskEntryCreateIn),
      (∃ s ∈ inp.sub_entries, keywordViolation db s) →
      ∃ msg, createEntryRequest db uid inp = Except.error msg)
    ∧ (∀ (db : Db) (uid eid : Nat) (u : TaskEntryUpdateIn)
        (subs : List TaskSubEntryCreateIn),
      u.sub_entries = Option.some subs →
      (∃ s ∈ subs, keywordViolation db s) →
      ∃ msg, updateEntryRequest db uid eid u = Except.error msg)
    ∧ ((upload_task_entries dbLeave 9 [rowLeaveWithProduction] true).1.successful = 1
       ∧ ((upload_task_entries dbLeave 9 [rowLeaveWithProduction] true).2.subEntries.map
           (fun s => (s.productive, s.hours, s.production))) = [(false, 2, 5)]) := by
  refine ⟨?_, ?_, by decide⟩
  · intro db uid inp hviol
    by_cases hsv : taskEntryCreateSchemaValid inp = true
    · rcases Option.isSome_iff_exists.mp
        (validateSubs_isSome_of_violation db inp.sub_entries hviol)
        with ⟨msg, hmsg⟩
      refine ⟨msg, ?_⟩
      rw [createEntryRequest, hsv]
      simp only [if_true]
      rw [create_task_entry, hmsg]
    · have hsv' : taskEntryCreateSchemaValid inp = false := by simpa using hsv
      refine ⟨"Unprocessable entity: request body validation failed", ?_⟩
      simp [createEntryRequest, hsv']
  · intro db uid eid u subs hsubs hviol
    by_cases hsv : taskEntryUpdateSchemaValid u = true
    · rw [updateEntryRequest, hsv]
      simp only [if_true]
      rw [update_task_entry]
      cases hfind : db.entries.find?
          (fun x => x.id == eid && x.user_id == uid) with
      | none => exact ⟨_, rfl⟩
      | some e =>
        dsimp only
        by_cases hg : (decide (e.status = Status.DRAFT)
            || decide (e.status = Status.PENDING)
            || decide (e.status = Status.REJECTED)) = true
        · rw [if_pos hg, hsubs]
          dsimp only
          rcases Option.isSome_iff_exists.mp
            (validateSubs_isSome_of_violation db subs hviol)
            with ⟨msg, hmsg⟩
          rw [hmsg]
          exact ⟨msg, rfl⟩
        · rw [if_neg hg]
          exact ⟨_, rfl⟩
    · have hsv' : taskEntryUpdateSchemaValid u = false := by simpa using hsv
      refine ⟨"Unprocessable entity: request body validation failed", ?_⟩
      simp [updateEntryRequest, hsv']

/-- C6 (amended) at concrete inputs: the violating Leave line makes both
Create and Edit fail. -/
theorem c6_amended_keyword_rule_witness :
    (∃ s ∈ inpLeaveViol.sub_entries, keywordViolation dbLeave s)
    ∧ (∃ msg, createEntryRequest dbLeave 7 inpLeaveViol = Except.error msg)
    ∧ (∃ msg, updateEntryRequest dbEdit 7 1 updLeaveViol = Except.error msg) :=
  have hv : keywordViolation dbLeave subLeaveViol :=
    ⟨taskLeave, by decide, Or.inl ⟨by decide, Or.inr (by decide)⟩⟩
  have hvE : keywordViolation dbEdit subLeaveViol :=
    ⟨taskLeave, by decide, Or.inl ⟨by decide, Or.inr (by decide)⟩⟩
  ⟨⟨subLeaveViol, by simp [inpLeaveViol], hv⟩,
   c6_amended_keyword_rule_scope.1 dbLeave 7 inpLeaveViol
     ⟨subLeaveViol, by simp [inpLeaveViol], hv⟩,
   c6_amended_keyword_rule_scope.2.1 dbEdit 7 1 updLeaveViol [subLeaveViol]
     rfl ⟨subLeaveViol, by simp, hvE⟩⟩
